import Mathlib

/-!
# Verification of the s3-stress bucket tool (src/main.rs)

Shallow embedding of the cleanup / create / validation workflows of the
`s3-stress` CLI.  The external S3 service is modelled as a script of
responses consumed by the pagination loop; machine effects (task spawning,
`println!`, `join_all`) are recorded in explicit event traces and logs.

Embedded functions keep the Rust source's names:
* `operation_cleanup_bucket` (src/main.rs lines 154-183): the pagination
  loop that lists pages of at most 20 keys and spawns one detached
  deletion task per page; the `join_all(delete_tasks)` line is commented
  out in the source, so the trace it produces contains no await event.
* `delete_objects` (lines 187-195): iterates a page's `contents`
  (unwrapping the `Option`), issues one delete per key and discards the
  result (`let _delete_result = ...`); the function contains no logging
  statement, so its log is empty.
* `operation_create_objects` (lines 138-150) and `create_object`
  (lines 197-213): 16 spawned tasks, each issuing `object_count` puts
  with a freshly generated UUID key, then `join_all` on the 16 handles.
* `validate_number` (lines 215-221): the regex check `\d` repeated one to
  six times, anchored at both ends; the regex crate's `\d` is
  Unicode-aware by default and matches the Unicode `Nd` (decimal digit
  number) category, not just ASCII digits, so the digit class is modelled
  by the `Nd` code point ranges.
-/

namespace S3Stress

/-- Opaque service error (carries only a message, like the SDK errors the
source merely unwraps or discards). -/
abbrev StoreError := String

/-- One listed object: the SDK's `Object` with its optional `key` field. -/
structure S3Object where
  key : Option String
  deriving DecidableEq

/-- The fields of `ListObjectsV2Output` that `operation_cleanup_bucket` and
`delete_objects` read: `contents`, `key_count`, `next_continuation_token`,
each optional exactly as in the SDK. -/
structure ListObjectsV2Output where
  contents : Option (List S3Object)
  key_count : Option Nat
  next_continuation_token : Option String
  deriving DecidableEq

/-- A `list_objects_v2` request as built by the loop: the bucket, the
`max_keys` cap, and the continuation token, present iff the loop's
`page_token` was present when the request was built. -/
structure ListRequest where
  bucket : String
  max_keys : Nat
  continuation_token : Option String
  deriving DecidableEq

/-- The payload a spawned deletion task owns: the bucket name and the page
output handed to `delete_objects`. -/
structure DeleteTask where
  bucket : String
  object_list : ListObjectsV2Output
  deriving DecidableEq

/-- Observable effects of the orchestration code, in program order. -/
inductive Event where
  | listCall (req : ListRequest)
  | spawnDelete (t : DeleteTask)
  | logLine (s : String)
  | spawnCreate (t : Nat)
  | awaitTasks (n : Nat)
  | ret
  deriving DecidableEq

/-- How a run of the cleanup operation ends: normal return, a `panic` from
one of the `unwrap()` calls, or starvation of the response script (the
modelled server stopped answering; impossible for a real server). -/
inductive Outcome where
  | ok
  | panicked
  | starved
  deriving DecidableEq

/-- Everything a run of `operation_cleanup_bucket` did: the listing
requests issued, the deletion tasks spawned (in spawn order), the
`println!` log, the event trace, the number of loop iterations entered,
and how the run ended. -/
structure CleanupRun where
  reqs : List ListRequest
  tasks : List DeleteTask
  log : List String
  events : List Event
  iters : Nat
  outcome : Outcome
  deriving DecidableEq

/-- A scripted server answer to one listing call: `Except.error` models the
SDK returning `Err` (which the source immediately `unwrap()`s). -/
abbrev ListResp := Except StoreError ListObjectsV2Output

/-- The `loop` body of `operation_cleanup_bucket` (src/main.rs 157-180),
consuming one scripted response per iteration.  Per iteration, in source
order: build the request with `max_keys(20)` and the continuation token
iff `page_token` is present; `send().await.unwrap()` (panic on error);
assign `page_token` from the response's `next_continuation_token`;
`key_count.unwrap()` (panic on `None`); `tokio::spawn(delete_objects ...)`
unconditionally; `println!` the spawn message; break iff the new
`page_token` is `None`. -/
def operation_cleanup_bucket_loop (bucket_name : String) (page_token : Option String) :
    List ListResp → CleanupRun
  | [] => ⟨[], [], [], [], 0, .starved⟩
  | resp :: rest =>
    let req : ListRequest := ⟨bucket_name, 20, page_token⟩
    match resp with
    | .error _ => ⟨[req], [], [], [.listCall req], 1, .panicked⟩
    | .ok object_list =>
      match object_list.key_count with
      | none => ⟨[req], [], [], [.listCall req], 1, .panicked⟩
      | some key_count =>
        let task : DeleteTask := ⟨bucket_name, object_list⟩
        let msg := "Spawned a new delete task for " ++ toString key_count ++ " objects"
        match object_list.next_continuation_token with
        | none =>
          ⟨[req], [task], [msg], [.listCall req, .spawnDelete task, .logLine msg, .ret], 1, .ok⟩
        | some t =>
          let r := operation_cleanup_bucket_loop bucket_name (some t) rest
          ⟨req :: r.reqs, task :: r.tasks, msg :: r.log,
            .listCall req :: .spawnDelete task :: .logLine msg :: r.events,
            r.iters + 1, r.outcome⟩

/-- `operation_cleanup_bucket` (src/main.rs 154-183): starts the loop with
`page_token = None`; the trailing `join_all(delete_tasks).await` is
commented out in the source, so nothing follows the loop. -/
def operation_cleanup_bucket (bucket_name : String) (script : List ListResp) : CleanupRun :=
  operation_cleanup_bucket_loop bucket_name none script

deriving instance DecidableEq for Except

/-- One attempted `delete_object` call: bucket, key, and the (discarded)
result the delete oracle produced. -/
structure DeleteAttempt where
  bucket : String
  key : String
  result : Except StoreError Unit
  deriving DecidableEq

/-- What a deletion task did: the delete calls it issued, in order, and
the log lines it printed (the source function prints nothing). -/
structure DeleteTaskRun where
  attempts : List DeleteAttempt
  log : List String
  deriving DecidableEq

/-- The `for object in object_list.contents.unwrap()` body of
`delete_objects`: each object's `key` is `unwrap()`ed (panic, i.e. `none`,
when absent), one delete call is issued per key, and its result is bound
to `_delete_result` and discarded. -/
def delete_objects_go (delete_object : String → String → Except StoreError Unit)
    (bucket_name : String) : List S3Object → Option (List DeleteAttempt)
  | [] => some []
  | obj :: rest =>
    match obj.key with
    | none => none
    | some k =>
      let delete_result := delete_object bucket_name k
      (delete_objects_go delete_object bucket_name rest).map
        (fun atts => ⟨bucket_name, k, delete_result⟩ :: atts)

/-- `delete_objects` (src/main.rs 187-195): `contents.unwrap()` (panic,
modelled `none`, when the page has no `Contents`), then the per-key loop.
The function body contains no `println!`, so the log of a completed run is
`[]`. -/
def delete_objects (delete_object : String → String → Except StoreError Unit)
    (bucket_name : String) (object_list : ListObjectsV2Output) : Option DeleteTaskRun :=
  match object_list.contents with
  | none => none
  | some objs =>
    (delete_objects_go delete_object bucket_name objs).map (fun atts => ⟨atts, []⟩)

/-- One `put_object` request issued by a creation task: bucket, key, and
which invocation of `uuid::Uuid::new_v4()` produced the key — draw
`(t, j)` is the `j`-th UUID generated by spawned task number `t`. -/
structure PutRequest where
  bucket : String
  key : String
  draw : Nat × Nat
  deriving DecidableEq

/-- What a creation task did: its put requests in order, and the log lines
it printed ("Failed to create S3 object" per failed put). -/
structure CreateTaskRun where
  puts : List PutRequest
  log : List String
  deriving DecidableEq

/-- `create_object` (src/main.rs 197-213): a `for _ in 1..=object_count`
loop (hence `object_count` iterations); each iteration generates a fresh
UUID key (modelled by the `uuid` oracle applied to this task's index and
the iteration number), issues one put with that key, and prints
"Failed to create S3 object" when the put result is an error. -/
def create_object (put_object : String → String → Except StoreError Unit)
    (uuid : Nat → Nat → String) (bucket_name : String) (task_idx : Nat)
    (object_count : Nat) : CreateTaskRun :=
  ⟨(List.range object_count).map (fun j => ⟨bucket_name, uuid task_idx j, (task_idx, j)⟩),
   (List.range object_count).filterMap (fun j =>
     match put_object bucket_name (uuid task_idx j) with
     | .error _ => some "Failed to create S3 object"
     | .ok _ => none)⟩

/-- What a run of `operation_create_objects` did: the 16 spawned tasks'
runs (in spawn order) and the orchestrator's event trace. -/
structure CreateObjectsRun where
  task_runs : List CreateTaskRun
  events : List Event

/-- `operation_create_objects` (src/main.rs 138-150): a `for _ in 1..=16`
loop spawns 16 creation tasks, pushing each `JoinHandle` onto a list, then
`join_all(join_handle_list).await` awaits all 16 handles before the
function returns. -/
def operation_create_objects (put_object : String → String → Except StoreError Unit)
    (uuid : Nat → Nat → String) (bucket_name : String) (object_count : Nat) :
    CreateObjectsRun :=
  ⟨(List.range 16).map (fun t => create_object put_object uuid bucket_name t object_count),
   ((List.range 16).map Event.spawnCreate) ++ [.awaitTasks 16, .ret]⟩

/-- The `inquire` validator verdict returned by `validate_number`. -/
inductive Validation where
  | valid
  | invalid (message : String)
  deriving DecidableEq

/-- The inclusive code point ranges of the Unicode `Nd` (decimal digit
number) general category, per DerivedGeneralCategory of Unicode 15.0 (the
version bundled with contemporary releases of the Rust regex crate).
This is the character class the crate's `\d` matches by default
(Unicode mode): ASCII `0-9` is only its first range, followed by
Arabic-Indic, Devanagari, ..., fullwidth and the other decimal-digit
blocks. -/
def ndRanges : List (Nat × Nat) :=
  [(0x30, 0x39), (0x660, 0x669), (0x6F0, 0x6F9), (0x7C0, 0x7C9),
   (0x966, 0x96F), (0x9E6, 0x9EF), (0xA66, 0xA6F), (0xAE6, 0xAEF),
   (0xB66, 0xB6F), (0xBE6, 0xBEF), (0xC66, 0xC6F), (0xCE6, 0xCEF),
   (0xD66, 0xD6F), (0xDE6, 0xDEF), (0xE50, 0xE59), (0xED0, 0xED9),
   (0xF20, 0xF29), (0x1040, 0x1049), (0x1090, 0x1099), (0x17E0, 0x17E9),
   (0x1810, 0x1819), (0x1946, 0x194F), (0x19D0, 0x19D9), (0x1A80, 0x1A89),
   (0x1A90, 0x1A99), (0x1B50, 0x1B59), (0x1BB0, 0x1BB9), (0x1C40, 0x1C49),
   (0x1C50, 0x1C59), (0xA620, 0xA629), (0xA8D0, 0xA8D9), (0xA900, 0xA909),
   (0xA9D0, 0xA9D9), (0xA9F0, 0xA9F9), (0xAA50, 0xAA59), (0xABF0, 0xABF9),
   (0xFF10, 0xFF19), (0x104A0, 0x104A9), (0x10D30, 0x10D39),
   (0x11066, 0x1106F), (0x110F0, 0x110F9), (0x11136, 0x1113F),
   (0x111D0, 0x111D9), (0x112F0, 0x112F9), (0x11450, 0x11459),
   (0x114D0, 0x114D9), (0x11650, 0x11659), (0x116C0, 0x116C9),
   (0x11730, 0x11739), (0x118E0, 0x118E9), (0x11950, 0x11959),
   (0x11C50, 0x11C59), (0x11D50, 0x11D59), (0x11DA0, 0x11DA9),
   (0x11F50, 0x11F59), (0x16A60, 0x16A69), (0x16AC0, 0x16AC9),
   (0x16B50, 0x16B59), (0x1D7CE, 0x1D7FF), (0x1E140, 0x1E149),
   (0x1E2F0, 0x1E2F9), (0x1E4F0, 0x1E4F9), (0x1E950, 0x1E959),
   (0x1FBF0, 0x1FBF9)]

/-- The Rust regex crate's `\d` with its default Unicode semantics:
membership of the character's code point in the Unicode `Nd` category. -/
def isUnicodeDigit (c : Char) : Bool :=
  ndRanges.any (fun r => r.1 ≤ c.toNat && c.toNat ≤ r.2)

/-- Matcher for the anchored pattern "between `lo` and `hi` characters of
class `p`, and nothing else": consumes the characters left to right,
requiring each to be in the class with repetition budget (`hi`)
remaining, and accepts at the end iff at least `lo` characters were
consumed. -/
def matchClassRange (p : Char → Bool) : Nat → Nat → List Char → Bool
  | lo, _, [] => lo == 0
  | lo, hi, c :: cs => decide (0 < hi) && p c && matchClassRange p (lo - 1) (hi - 1) cs

/-- `validate_number` (src/main.rs 215-221): the input matches the regex
`^\d{1,6}$` — one to six characters of the Unicode decimal-digit class
`\d` (modelled by `matchClassRange isUnicodeDigit 1 6`) — and yields
`Valid`, otherwise `Invalid` with the fixed message; both verdicts are
wrapped in `Ok` as in the source. -/
def validate_number (input : String) : Except String Validation :=
  if matchClassRange isUnicodeDigit 1 6 input.data then
    .ok .valid
  else
    .ok (.invalid "Invalid quantity specified. Please use a value from 1 - 999999")

/-! ## Server model for termination claims

`serverPages` models an S3 listing backend holding a fixed list of keys:
each response carries at most `ps` keys, with a continuation token exactly
when keys remain beyond this page.  The recursion is driven by explicit
fuel (any fuel at least the number of keys behaves identically), keeping
the definition structurally recursive and hence evaluable. -/

/-- Build the scripted responses for a backend holding `keys`, serving at
most `ps` keys per page: the last (possibly empty) page carries no
continuation token, every earlier page carries one.  `fuel` bounds the
recursion; `keys.length` is always enough. -/
def serverPagesGo (ps : Nat) : Nat → List String → List ListObjectsV2Output
  | 0, keys =>
    [⟨some (keys.map (fun k => ⟨some k⟩)), some keys.length, none⟩]
  | f + 1, keys =>
    if keys.length ≤ ps ∨ ps = 0 then
      [⟨some (keys.map (fun k => ⟨some k⟩)), some keys.length, none⟩]
    else
      ⟨some ((keys.take ps).map (fun k => ⟨some k⟩)), some ps, some "token"⟩ ::
        serverPagesGo ps f (keys.drop ps)

/-- The full response script of a backend holding `keys` with page size
`ps`. -/
def serverPages (ps : Nat) (keys : List String) : List ListObjectsV2Output :=
  serverPagesGo ps keys.length keys

/-- A response script that fully drains a bucket: every page has a
`key_count`, every page but the last carries a continuation token, and the
last page carries none. -/
def drainsFully : List ListObjectsV2Output → Bool
  | [] => false
  | o :: rest =>
    o.key_count.isSome &&
      (match rest with
       | [] => o.next_continuation_token.isNone
       | _ :: _ => o.next_continuation_token.isSome && drainsFully rest)

/-- Index of the first response whose continuation token is absent — the
only response at which the source loop can break. -/
def firstExit : List ListObjectsV2Output → Option Nat
  | [] => none
  | o :: rest =>
    if o.next_continuation_token.isNone then some 0 else (firstExit rest).map (· + 1)

/-! ## Helper lemmas about the pagination loop -/

/-- On a script of successful responses that all carry a `key_count`, the
loop spawns exactly one deletion task per iteration and issues exactly one
listing call per iteration, for any starting token. -/
lemma loop_spawn_per_page (b : String) (l : List ListObjectsV2Output)
    (h : ∀ o ∈ l, o.key_count.isSome) (tok : Option String) :
    (operation_cleanup_bucket_loop b tok (l.map .ok)).tasks.length
        = (operation_cleanup_bucket_loop b tok (l.map .ok)).iters ∧
      (operation_cleanup_bucket_loop b tok (l.map .ok)).reqs.length
        = (operation_cleanup_bucket_loop b tok (l.map .ok)).iters := by
  induction l generalizing tok with
  | nil => simp [operation_cleanup_bucket_loop]
  | cons o rest ih =>
    obtain ⟨kc, hkc⟩ := Option.isSome_iff_exists.mp (h o (List.mem_cons_self o rest))
    have hrest : ∀ x ∈ rest, x.key_count.isSome := fun x hx => h x (List.mem_cons_of_mem _ hx)
    rcases htok : o.next_continuation_token with _ | t
    · simp [operation_cleanup_bucket_loop, hkc, htok]
    · simpa [operation_cleanup_bucket_loop, hkc, htok] using ih hrest (some t)

/-- On a fully draining script the loop consumes every page, returns
normally, and counts one iteration, one request and one task per page. -/
lemma loop_drains (b : String) (l : List ListObjectsV2Output)
    (h : drainsFully l = true) (tok : Option String) :
    (operation_cleanup_bucket_loop b tok (l.map .ok)).outcome = .ok ∧
      (operation_cleanup_bucket_loop b tok (l.map .ok)).iters = l.length ∧
      (operation_cleanup_bucket_loop b tok (l.map .ok)).reqs.length = l.length ∧
      (operation_cleanup_bucket_loop b tok (l.map .ok)).tasks.length = l.length := by
  induction l generalizing tok with
  | nil => simp [drainsFully] at h
  | cons o rest ih =>
    rw [drainsFully.eq_def] at h
    rcases rest with _ | ⟨o2, rest2⟩
    · simp only [Bool.and_eq_true, Option.isSome_iff_exists, Option.isNone_iff_eq_none] at h
      obtain ⟨⟨kc, hkc⟩, htok⟩ := h
      simp [operation_cleanup_bucket_loop, hkc, htok]
    · simp only [Bool.and_eq_true, Option.isSome_iff_exists] at h
      obtain ⟨⟨kc, hkc⟩, ⟨t, htok⟩, hrest⟩ := h
      simpa [operation_cleanup_bucket_loop, hkc, htok] using ih hrest (some t)

/-- The loop's event trace never contains an await of the spawned deletion
tasks, and a normal return ends the trace with the `ret` event, for any
script (successes, failures, missing fields alike). -/
lemma loop_no_await (b : String) (l : List ListResp) (tok : Option String) :
    (∀ n, Event.awaitTasks n ∉ (operation_cleanup_bucket_loop b tok l).events) ∧
      ((operation_cleanup_bucket_loop b tok l).outcome = .ok →
        (operation_cleanup_bucket_loop b tok l).events.getLast? = some .ret) := by
  induction l generalizing tok with
  | nil => simp [operation_cleanup_bucket_loop]
  | cons resp rest ih =>
    rcases resp with e | o
    · simp [operation_cleanup_bucket_loop]
    · rcases hkc : o.key_count with _ | kc
      · simp [operation_cleanup_bucket_loop, hkc]
      · rcases htok : o.next_continuation_token with _ | t
        · simp [operation_cleanup_bucket_loop, hkc, htok]
        · obtain ⟨ih1, ih2⟩ := ih (some t)
          constructor
          · intro n
            simp only [operation_cleanup_bucket_loop, hkc, htok, List.mem_cons]
            push_neg
            exact ⟨by simp, by simp, by simp, ih1 n⟩
          · intro hok
            have hok' : (operation_cleanup_bucket_loop b (some t) rest).outcome = .ok := by
              simpa [operation_cleanup_bucket_loop, hkc, htok] using hok
            have hlast := ih2 hok'
            have hne : (operation_cleanup_bucket_loop b (some t) rest).events ≠ [] := by
              intro hnil
              rw [hnil] at hlast
              simp at hlast
            simp only [operation_cleanup_bucket_loop, hkc, htok]
            rcases hev : (operation_cleanup_bucket_loop b (some t) rest).events with _ | ⟨e0, es⟩
            · exact absurd hev hne
            · simpa [List.getLast?_cons_cons, hev] using hlast

/-- The generated script is never empty. -/
lemma serverPagesGo_ne_nil (ps fuel : Nat) (keys : List String) :
    serverPagesGo ps fuel keys ≠ [] := by
  rcases fuel with _ | f
  · simp [serverPagesGo]
  · rw [serverPagesGo]
    split <;> simp

/-- With positive page size and enough fuel, the generated script fully
drains the bucket: last page tokenless, earlier pages tokened, all pages
counted. -/
lemma serverPagesGo_drains (ps : Nat) (hps : 0 < ps) :
    ∀ fuel keys, keys.length ≤ fuel → drainsFully (serverPagesGo ps fuel keys) = true := by
  intro fuel
  induction fuel with
  | zero =>
    intro keys hk
    simp [serverPagesGo, drainsFully]
  | succ f ih =>
    intro keys hk
    by_cases hcond : keys.length ≤ ps ∨ ps = 0
    · rw [serverPagesGo]
      simp [hcond, drainsFully]
    · push_neg at hcond
      obtain ⟨hgt, hps0⟩ := hcond
      have hdrop : (keys.drop ps).length ≤ f := by
        simp only [List.length_drop]
        omega
      have hrec := ih (keys.drop ps) hdrop
      have hne := serverPagesGo_ne_nil ps f (keys.drop ps)
      rw [serverPagesGo]
      rw [if_neg (by omega : ¬ (keys.length ≤ ps ∨ ps = 0))]
      rcases hrest : serverPagesGo ps f (keys.drop ps) with _ | ⟨r0, rs⟩
      · exact absurd hrest hne
      · rw [hrest] at hrec
        rw [drainsFully.eq_def]
        simp [hrec]

/-- With positive page size and enough fuel, the script length is exactly
the ceiling of the key count over the page size, and one for an empty
bucket. -/
lemma serverPagesGo_length (ps : Nat) (hps : 0 < ps) :
    ∀ fuel keys, keys.length ≤ fuel →
      (serverPagesGo ps fuel keys).length
        = if keys.length = 0 then 1 else (keys.length + ps - 1) / ps := by
  intro fuel
  induction fuel with
  | zero =>
    intro keys hk
    have hnil : keys.length = 0 := Nat.le_zero.mp hk
    simp [serverPagesGo, hnil]
  | succ f ih =>
    intro keys hk
    by_cases hcond : keys.length ≤ ps ∨ ps = 0
    · rw [serverPagesGo]
      rw [if_pos hcond]
      by_cases hz : keys.length = 0
      · simp [hz]
      · have hle : keys.length ≤ ps := by omega
        have h1 : keys.length + ps - 1 = (keys.length - 1) + ps := by omega
        rw [if_neg hz, h1, Nat.add_div_right _ hps, Nat.div_eq_of_lt (by omega)]
        simp
    · push_neg at hcond
      obtain ⟨hgt, hps0⟩ := hcond
      have hdrop : (keys.drop ps).length ≤ f := by
        simp only [List.length_drop]
        omega
      have hrec := ih (keys.drop ps) hdrop
      rw [serverPagesGo]
      rw [if_neg (by omega : ¬ (keys.length ≤ ps ∨ ps = 0))]
      simp only [List.length_cons, hrec, List.length_drop]
      have hz' : ¬ (keys.length - ps = 0) := by omega
      rw [if_neg hz', if_neg (by omega : ¬ (keys.length = 0))]
      have h2 : keys.length + ps - 1 = ((keys.length - ps) + ps - 1) + ps := by omega
      rw [h2, Nat.add_div_right _ hps]

/-- Loop termination is governed solely by token absence: on an all-`ok`
script whose responses all carry a `key_count`, the loop runs exactly up
to (and including) the first tokenless response, and if every response
carries a token the loop consumes the whole script without ever exiting. -/
lemma loop_exit_governance (b : String) (l : List ListObjectsV2Output)
    (h : ∀ o ∈ l, o.key_count.isSome) (tok : Option String) :
    (∀ i, firstExit l = some i →
        (operation_cleanup_bucket_loop b tok (l.map .ok)).outcome = .ok ∧
          (operation_cleanup_bucket_loop b tok (l.map .ok)).iters = i + 1) ∧
      (firstExit l = none →
        (operation_cleanup_bucket_loop b tok (l.map .ok)).outcome = .starved ∧
          (operation_cleanup_bucket_loop b tok (l.map .ok)).iters = l.length) := by
  induction l generalizing tok with
  | nil => simp [operation_cleanup_bucket_loop, firstExit]
  | cons o rest ih =>
    obtain ⟨kc, hkc⟩ := Option.isSome_iff_exists.mp (h o (List.mem_cons_self o rest))
    have hrest : ∀ x ∈ rest, x.key_count.isSome := fun x hx => h x (List.mem_cons_of_mem _ hx)
    rcases htok : o.next_continuation_token with _ | t
    · constructor
      · intro i hi
        rw [firstExit] at hi
        simp only [htok, Option.isNone_none, if_pos] at hi
        obtain rfl : (0 : Nat) = i := Option.some.inj hi
        simp [operation_cleanup_bucket_loop, hkc, htok]
      · intro hnone
        rw [firstExit] at hnone
        simp [htok] at hnone
    · obtain ⟨ih1, ih2⟩ := ih hrest (some t)
      constructor
      · intro i hi
        rw [firstExit] at hi
        simp only [htok, Option.isNone_some, if_neg, Bool.false_eq_true, not_false_iff,
          if_false] at hi
        rcases hfe : firstExit rest with _ | j
        · rw [hfe] at hi
          simp at hi
        · rw [hfe] at hi
          simp only [Option.map_some'] at hi
          obtain rfl : j + 1 = i := Option.some.inj hi
          obtain ⟨hok, hit⟩ := ih1 j hfe
          simp [operation_cleanup_bucket_loop, hkc, htok, hok, hit]
      · intro hnone
        rw [firstExit] at hnone
        simp only [htok, Option.isNone_some, Bool.false_eq_true, if_false,
          Option.map_eq_none'] at hnone
        obtain ⟨hst, hit⟩ := ih2 hnone
        simp [operation_cleanup_bucket_loop, hkc, htok, hst, hit]

/-- Any listing failure is fatal: on a script of well-tokened successes
followed by an error, the loop panics at the error, having issued one
listing call per success plus the failing one, and having spawned exactly
one task per successful page (none when the error comes first). -/
lemma loop_error_fatal (b : String) (pre : List ListObjectsV2Output)
    (h : ∀ o ∈ pre, o.key_count.isSome ∧ o.next_continuation_token.isSome)
    (e : StoreError) (post : List ListResp) (tok : Option String) :
    (operation_cleanup_bucket_loop b tok (pre.map .ok ++ .error e :: post)).outcome
        = .panicked ∧
      (operation_cleanup_bucket_loop b tok (pre.map .ok ++ .error e :: post)).reqs.length
        = pre.length + 1 ∧
      (operation_cleanup_bucket_loop b tok (pre.map .ok ++ .error e :: post)).tasks.length
        = pre.length := by
  induction pre generalizing tok with
  | nil => simp [operation_cleanup_bucket_loop]
  | cons o rest ih =>
    obtain ⟨hkcs, htoks⟩ := h o (List.mem_cons_self o rest)
    obtain ⟨kc, hkc⟩ := Option.isSome_iff_exists.mp hkcs
    obtain ⟨t, htok⟩ := Option.isSome_iff_exists.mp htoks
    have hrest : ∀ x ∈ rest, x.key_count.isSome ∧ x.next_continuation_token.isSome :=
      fun x hx => h x (List.mem_cons_of_mem _ hx)
    simpa [operation_cleanup_bucket_loop, hkc, htok] using ih hrest (some t)

/-- Shape of the listing requests the loop issues, for an arbitrary
response script: every request caps at 20 keys and names the loop's
bucket; the first request carries the loop's starting token; and request
`i+1` exists only when response `i` succeeded with a present continuation
token, which is exactly the token request `i+1` carries. -/
lemma loop_reqs_spec (b : String) (l : List ListResp) (tok : Option String) :
    (∀ r ∈ (operation_cleanup_bucket_loop b tok l).reqs, r.max_keys = 20 ∧ r.bucket = b) ∧
      (∀ r, (operation_cleanup_bucket_loop b tok l).reqs[0]? = some r → r = ⟨b, 20, tok⟩) ∧
      (∀ i r, (operation_cleanup_bucket_loop b tok l).reqs[i + 1]? = some r →
        ∃ o, l[i]? = some (.ok o) ∧ r.continuation_token = o.next_continuation_token ∧
          o.next_continuation_token ≠ none) := by
  induction l generalizing tok with
  | nil => simp [operation_cleanup_bucket_loop]
  | cons resp rest ih =>
    rcases resp with e | o
    · refine ⟨?_, ?_, ?_⟩
      · intro r hr
        simp only [operation_cleanup_bucket_loop, List.mem_singleton] at hr
        simp [hr]
      · intro r h0
        simp only [operation_cleanup_bucket_loop, List.getElem?_cons_zero] at h0
        exact (Option.some.inj h0).symm
      · intro i r hi
        simp [operation_cleanup_bucket_loop] at hi
    · rcases hkc : o.key_count with _ | kc
      · refine ⟨?_, ?_, ?_⟩
        · intro r hr
          simp only [operation_cleanup_bucket_loop, hkc, List.mem_singleton] at hr
          simp [hr]
        · intro r h0
          simp only [operation_cleanup_bucket_loop, hkc, List.getElem?_cons_zero] at h0
          exact (Option.some.inj h0).symm
        · intro i r hi
          simp [operation_cleanup_bucket_loop, hkc] at hi
      · rcases htok : o.next_continuation_token with _ | t
        · refine ⟨?_, ?_, ?_⟩
          · intro r hr
            simp only [operation_cleanup_bucket_loop, hkc, htok, List.mem_singleton] at hr
            simp [hr]
          · intro r h0
            simp only [operation_cleanup_bucket_loop, hkc, htok,
              List.getElem?_cons_zero] at h0
            exact (Option.some.inj h0).symm
          · intro i r hi
            simp [operation_cleanup_bucket_loop, hkc, htok] at hi
        · obtain ⟨ih1, ih2, ih3⟩ := ih (some t)
          refine ⟨?_, ?_, ?_⟩
          · intro r hr
            simp only [operation_cleanup_bucket_loop, hkc, htok, List.mem_cons] at hr
            rcases hr with rfl | hr
            · exact ⟨rfl, rfl⟩
            · exact ih1 r hr
          · intro r h0
            simp only [operation_cleanup_bucket_loop, hkc, htok,
              List.getElem?_cons_zero] at h0
            exact (Option.some.inj h0).symm
          · intro i r hi
            simp only [operation_cleanup_bucket_loop, hkc, htok,
              List.getElem?_cons_succ] at hi
            rcases i with _ | i
            · have hr := ih2 r hi
              refine ⟨o, by simp, ?_, by simp [htok]⟩
              rw [hr, htok]
            · obtain ⟨o2, ho2, hchain, hne⟩ := ih3 i r hi
              exact ⟨o2, by simpa using ho2, hchain, hne⟩

/-- The anchored repetition matcher accepts exactly the strings made of
`lo` to `hi` characters of its class. -/
lemma matchClassRange_iff (p : Char → Bool) (cs : List Char) : ∀ lo hi : Nat,
    matchClassRange p lo hi cs = true ↔
      (cs.all p = true ∧ lo ≤ cs.length ∧ cs.length ≤ hi) := by
  induction cs with
  | nil =>
    intro lo hi
    simp [matchClassRange, Nat.le_zero]
  | cons c cs ih =>
    intro lo hi
    simp only [matchClassRange, Bool.and_eq_true, decide_eq_true_eq, List.all_cons,
      List.length_cons, ih (lo - 1) (hi - 1)]
    constructor
    · rintro ⟨⟨hhi, hc⟩, hall, hlo, hle⟩
      exact ⟨⟨hc, hall⟩, by omega, by omega⟩
    · rintro ⟨⟨hc, hall⟩, hlo, hle⟩
      exact ⟨⟨by omega, hc⟩, hall, by omega, by omega⟩

/-- Per-key behaviour of a deletion task on a batch whose objects all have
keys: every key is attempted exactly once, in listing order, against the
task's bucket, the oracle's verdict for each key is recorded (and
discarded) without affecting the rest, and the traversal always completes
(`some`), whatever the delete oracle answers. -/
lemma delete_objects_go_spec (delete_object : String → String → Except StoreError Unit)
    (b : String) (objs : List S3Object) (h : ∀ o ∈ objs, o.key.isSome) :
    ∃ atts, delete_objects_go delete_object b objs = some atts ∧
      atts.map (fun a => a.key) = objs.map (fun o => o.key.getD "") ∧
      (∀ a ∈ atts, a.bucket = b ∧ a.result = delete_object b a.key) := by
  induction objs with
  | nil => exact ⟨[], rfl, rfl, by simp⟩
  | cons o rest ih =>
    obtain ⟨k, hk⟩ := Option.isSome_iff_exists.mp (h o (List.mem_cons_self o rest))
    obtain ⟨atts, hatts, hkeys, hres⟩ :=
      ih (fun x hx => h x (List.mem_cons_of_mem _ hx))
    refine ⟨⟨b, k, delete_object b k⟩ :: atts, ?_, ?_, ?_⟩
    · simp [delete_objects_go, hk, hatts]
    · simp [hkeys, hk]
    · intro a ha
      rcases List.mem_cons.mp ha with rfl | ha
      · exact ⟨rfl, rfl⟩
      · exact hres a ha

/-! ## Claim theorems -/

/-- Claim C1, counterexample: the claim says spawning is skipped for a
zero-key batch, but on a script consisting of one empty page (zero keys,
no `Contents`, no next token) the loop spawns one deletion task, not
zero — the `tokio::spawn` at src/main.rs:174 is unconditional. -/
theorem C1_empty_page_spawns_task :
    (ListObjectsV2Output.mk none (some 0) none).key_count = some 0 ∧
      (operation_cleanup_bucket "bucket"
        [.ok ⟨none, (some 0), none⟩]).tasks.length = 1 ∧
      ¬ (operation_cleanup_bucket "bucket"
        [.ok ⟨none, (some 0), none⟩]).tasks.length = 0 := by
  decide

/-- Claim C1 (amended): the cleanup loop spawns exactly one deletion task
per received page — including pages with zero keys; spawning is never
skipped.  On any all-successful script whose pages carry a `key_count`,
the number of spawned tasks equals the number of loop iterations, which
equals the number of listing calls. -/
theorem C1_one_task_per_page (b : String) (l : List ListObjectsV2Output)
    (h : ∀ o ∈ l, o.key_count.isSome) :
    (operation_cleanup_bucket b (l.map .ok)).tasks.length
        = (operation_cleanup_bucket b (l.map .ok)).iters ∧
      (operation_cleanup_bucket b (l.map .ok)).reqs.length
        = (operation_cleanup_bucket b (l.map .ok)).iters :=
  loop_spawn_per_page b l h none

/-- Witness for the amended C1 at a two-page script whose first page has
zero keys. -/
theorem C1_one_task_per_page_witness :
    (∀ o ∈ [ListObjectsV2Output.mk none (some 0) (some "t"),
        ListObjectsV2Output.mk none (some 0) none], o.key_count.isSome) ∧
      ((operation_cleanup_bucket "bucket"
            ([ListObjectsV2Output.mk none (some 0) (some "t"),
              ListObjectsV2Output.mk none (some 0) none].map .ok)).tasks.length
          = (operation_cleanup_bucket "bucket"
              ([ListObjectsV2Output.mk none (some 0) (some "t"),
                ListObjectsV2Output.mk none (some 0) none].map .ok)).iters ∧
        (operation_cleanup_bucket "bucket"
            ([ListObjectsV2Output.mk none (some 0) (some "t"),
              ListObjectsV2Output.mk none (some 0) none].map .ok)).reqs.length
          = (operation_cleanup_bucket "bucket"
              ([ListObjectsV2Output.mk none (some 0) (some "t"),
                ListObjectsV2Output.mk none (some 0) none].map .ok)).iters) :=
  ⟨by decide,
    C1_one_task_per_page "bucket"
      [⟨none, (some 0), (some "t")⟩, ⟨none, (some 0), none⟩] (by decide)⟩

/-- Claim C2, counterexample: with a delete oracle that fails on key "k1"
and succeeds on "k2", the deletion task attempts both keys once each,
returns normally, and logs nothing — its log is `[]`, refuting the
claim's conjunct that a per-key failure "is logged as a diagnostic
message" (the source binds the result to `_delete_result` and discards it
without any `println!`). -/
theorem C2_failure_not_logged :
    delete_objects (fun _ k => if k = "k1" then .error "boom" else .ok ()) "bucket"
        ⟨some [⟨some "k1"⟩, ⟨some "k2"⟩], (some 2), none⟩
      = some ⟨[⟨"bucket", "k1", .error "boom"⟩, ⟨"bucket", "k2", .ok ()⟩], []⟩ := by
  decide

/-- Claim C2 (amended): a per-key deletion failure is recovered locally by
silently discarding it — nothing is logged, the failure is not retried
and not surfaced, and every key of the batch (before and after the
failing one) is still attempted exactly once, in order: for any delete
oracle and any batch whose objects carry keys, the task returns `some`
run whose attempts list the batch's keys one-for-one against the task's
bucket, with the oracle's verdict recorded per key, and whose log is
empty. -/
theorem C2_failures_silently_ignored
    (delete_object : String → String → Except StoreError Unit) (b : String)
    (objs : List S3Object) (kc : Option Nat) (ntok : Option String)
    (h : ∀ o ∈ objs, o.key.isSome) :
    ∃ r, delete_objects delete_object b ⟨some objs, kc, ntok⟩ = some r ∧
      r.attempts.map (fun a => a.key) = objs.map (fun o => o.key.getD "") ∧
      (∀ a ∈ r.attempts, a.bucket = b ∧ a.result = delete_object b a.key) ∧
      r.log = [] := by
  obtain ⟨atts, hatts, hkeys, hres⟩ := delete_objects_go_spec delete_object b objs h
  exact ⟨⟨atts, []⟩, by simp [delete_objects, hatts], hkeys, hres, rfl⟩

/-- Witness for the amended C2 at a concrete two-key batch with a failing
first key. -/
theorem C2_failures_silently_ignored_witness :
    (∀ o ∈ [S3Object.mk (some "k1"), S3Object.mk (some "k2")], o.key.isSome) ∧
      (∃ r, delete_objects (fun _ k => if k = "k1" then .error "boom" else .ok ())
            "bucket" ⟨some [⟨some "k1"⟩, ⟨some "k2"⟩], (some 2), none⟩ = some r ∧
        r.attempts.map (fun a => a.key)
          = [S3Object.mk (some "k1"), S3Object.mk (some "k2")].map
              (fun o => o.key.getD "") ∧
        (∀ a ∈ r.attempts, a.bucket = "bucket" ∧
          a.result = (fun _ k => if k = "k1" then (.error "boom" : Except StoreError Unit)
            else .ok ()) "bucket" a.key) ∧
        r.log = []) :=
  ⟨by decide,
    C2_failures_silently_ignored (fun _ k => if k = "k1" then .error "boom" else .ok ())
      "bucket" [⟨some "k1"⟩, ⟨some "k2"⟩] (some 2) none (by decide)⟩

/-- Claim C3: cleanup of an empty bucket is not an error — on a script
whose single response has zero keys (no `Contents`, `key_count` 0) and no
next token, the pagination loop completes after that one page and the
cleanup operation returns normally, having issued exactly one listing
call. -/
theorem C3_empty_bucket_not_an_error (b : String) :
    (operation_cleanup_bucket b [.ok ⟨none, (some 0), none⟩]).outcome = .ok ∧
      (operation_cleanup_bucket b [.ok ⟨none, (some 0), none⟩]).iters = 1 ∧
      (operation_cleanup_bucket b [.ok ⟨none, (some 0), none⟩]).reqs.length = 1 := by
  refine ⟨?_, ?_, ?_⟩ <;>
    simp [operation_cleanup_bucket, operation_cleanup_bucket_loop]

/-- Claim C4: against a server holding finitely many keys that serves
pages of at most `ps` keys with a continuation token exactly when keys
remain, the loop terminates normally after exactly
`ceil(total / ps)` listing calls (one call for an empty bucket), spawning
one task per call; concretely, 45 keys at page size 20 yield 3 listing
calls returning 20, 20 and 5 keys, 3 spawned deletion tasks, a final
response with absent next-token, and exit after 3 iterations. -/
theorem C4_pagination_terminates_with_ceil_calls :
    (∀ (b : String) (ps : Nat) (keys : List String), 0 < ps →
        (operation_cleanup_bucket b ((serverPages ps keys).map .ok)).outcome = .ok ∧
          (operation_cleanup_bucket b ((serverPages ps keys).map .ok)).reqs.length
            = (if keys.length = 0 then 1 else (keys.length + ps - 1) / ps) ∧
          (operation_cleanup_bucket b ((serverPages ps keys).map .ok)).iters
            = (if keys.length = 0 then 1 else (keys.length + ps - 1) / ps) ∧
          (operation_cleanup_bucket b ((serverPages ps keys).map .ok)).tasks.length
            = (if keys.length = 0 then 1 else (keys.length + ps - 1) / ps)) ∧
      ((serverPages 20 ((List.range 45).map toString)).map (fun o => o.key_count)
          = [some 20, some 20, some 5] ∧
        (serverPages 20 ((List.range 45).map toString)).getLast?.map
            (fun o => o.next_continuation_token) = some none ∧
        (operation_cleanup_bucket "bucket"
            ((serverPages 20 ((List.range 45).map toString)).map .ok)).reqs.length = 3 ∧
        (operation_cleanup_bucket "bucket"
            ((serverPages 20 ((List.range 45).map toString)).map .ok)).iters = 3 ∧
        (operation_cleanup_bucket "bucket"
            ((serverPages 20 ((List.range 45).map toString)).map .ok)).tasks.length = 3 ∧
        (operation_cleanup_bucket "bucket"
            ((serverPages 20 ((List.range 45).map toString)).map .ok)).outcome = .ok) := by
  constructor
  · intro b ps keys hps
    have hd : drainsFully (serverPages ps keys) = true :=
      serverPagesGo_drains ps hps keys.length keys le_rfl
    have hl : (serverPages ps keys).length
        = (if keys.length = 0 then 1 else (keys.length + ps - 1) / ps) :=
      serverPagesGo_length ps hps keys.length keys le_rfl
    obtain ⟨hok, hit, hreq, htask⟩ := loop_drains b (serverPages ps keys) hd none
    exact ⟨hok, by rw [← hl]; exact hreq, by rw [← hl]; exact hit, by rw [← hl]; exact htask⟩
  · refine ⟨by decide, by decide, by decide, by decide, by decide, by decide⟩

/-- Witness for C4 at page size 20 and a single key. -/
theorem C4_pagination_terminates_with_ceil_calls_witness :
    (0 : Nat) < 20 ∧
      ((operation_cleanup_bucket "w" ((serverPages 20 ["a"]).map .ok)).outcome = .ok ∧
        (operation_cleanup_bucket "w" ((serverPages 20 ["a"]).map .ok)).reqs.length
          = (if (["a"] : List String).length = 0 then 1
              else ((["a"] : List String).length + 20 - 1) / 20) ∧
        (operation_cleanup_bucket "w" ((serverPages 20 ["a"]).map .ok)).iters
          = (if (["a"] : List String).length = 0 then 1
              else ((["a"] : List String).length + 20 - 1) / 20) ∧
        (operation_cleanup_bucket "w" ((serverPages 20 ["a"]).map .ok)).tasks.length
          = (if (["a"] : List String).length = 0 then 1
              else ((["a"] : List String).length + 20 - 1) / 20)) :=
  ⟨by decide, C4_pagination_terminates_with_ceil_calls.1 "w" 20 ["a"] (by decide)⟩

/-- Claim C5: loop exit is governed solely by token absence — on any
all-successful script with key counts present, the loop exits normally
exactly at the first response with an absent next-token (running `i + 1`
iterations when that response is at index `i`), and never stops while
tokens are present: if every response carries a token the loop consumes
the entire script without exiting.  Concretely, a zero-key page carrying
a token does not end the loop: the loop proceeds to the next page. -/
theorem C5_exit_iff_token_absent :
    (∀ (b : String) (l : List ListObjectsV2Output), (∀ o ∈ l, o.key_count.isSome) →
        (∀ i, firstExit l = some i →
            (operation_cleanup_bucket b (l.map .ok)).outcome = .ok ∧
              (operation_cleanup_bucket b (l.map .ok)).iters = i + 1) ∧
          (firstExit l = none →
            (operation_cleanup_bucket b (l.map .ok)).outcome = .starved ∧
              (operation_cleanup_bucket b (l.map .ok)).iters = l.length)) ∧
      ((operation_cleanup_bucket "bucket"
          [.ok ⟨some [], (some 0), (some "t")⟩, .ok ⟨none, (some 0), none⟩]).iters = 2 ∧
        (operation_cleanup_bucket "bucket"
          [.ok ⟨some [], (some 0), (some "t")⟩, .ok ⟨none, (some 0), none⟩]).outcome
            = .ok) := by
  exact ⟨fun b l h => loop_exit_governance b l h none, by decide, by decide⟩

/-- Witness for C5 at a two-page script whose first (zero-key) page
carries a token and whose second page does not. -/
theorem C5_exit_iff_token_absent_witness :
    (∀ o ∈ [ListObjectsV2Output.mk (some []) (some 0) (some "t"),
        ListObjectsV2Output.mk none (some 0) none], o.key_count.isSome) ∧
      firstExit [ListObjectsV2Output.mk (some []) (some 0) (some "t"),
        ListObjectsV2Output.mk none (some 0) none] = some 1 ∧
      ((operation_cleanup_bucket "bucket"
          ([ListObjectsV2Output.mk (some []) (some 0) (some "t"),
            ListObjectsV2Output.mk none (some 0) none].map .ok)).outcome = .ok ∧
        (operation_cleanup_bucket "bucket"
          ([ListObjectsV2Output.mk (some []) (some 0) (some "t"),
            ListObjectsV2Output.mk none (some 0) none].map .ok)).iters = 1 + 1) :=
  ⟨by decide, by decide,
    (C5_exit_iff_token_absent.1 "bucket"
        [⟨some [], (some 0), (some "t")⟩, ⟨none, (some 0), none⟩] (by decide)).1
      1 (by decide)⟩

/-- Claim C6: a listing failure is fatal — on any script of well-tokened
successful pages followed by a listing error, the loop panics at the
error response: it issues no further listing call (one call per prior
page plus the failing one, never repeated) and spawns one task per prior
page only; in particular when the very first listing call fails, the
operation fails with no deletion task ever spawned. -/
theorem C6_listing_failure_fatal :
    (∀ (b : String) (pre : List ListObjectsV2Output) (e : StoreError)
        (post : List ListResp),
        (∀ o ∈ pre, o.key_count.isSome ∧ o.next_continuation_token.isSome) →
        (operation_cleanup_bucket b (pre.map .ok ++ .error e :: post)).outcome
            = .panicked ∧
          (operation_cleanup_bucket b (pre.map .ok ++ .error e :: post)).reqs.length
            = pre.length + 1 ∧
          (operation_cleanup_bucket b (pre.map .ok ++ .error e :: post)).tasks.length
            = pre.length) ∧
      (∀ (b : String) (e : StoreError) (post : List ListResp),
        (operation_cleanup_bucket b (.error e :: post)).outcome = .panicked ∧
          (operation_cleanup_bucket b (.error e :: post)).tasks = [] ∧
          (operation_cleanup_bucket b (.error e :: post)).reqs.length = 1) := by
  refine ⟨fun b pre e post h => loop_error_fatal b pre h e post none, fun b e post => ?_⟩
  refine ⟨?_, ?_, ?_⟩ <;> simp [operation_cleanup_bucket, operation_cleanup_bucket_loop]

/-- Witness for C6: first listing call fails on an otherwise nonempty
script. -/
theorem C6_listing_failure_fatal_witness :
    (∀ o ∈ ([] : List ListObjectsV2Output),
        o.key_count.isSome ∧ o.next_continuation_token.isSome) ∧
      ((operation_cleanup_bucket "bucket"
          (([] : List ListObjectsV2Output).map .ok
            ++ .error "denied" :: [.ok ⟨none, (some 0), none⟩])).outcome = .panicked ∧
        (operation_cleanup_bucket "bucket"
          (([] : List ListObjectsV2Output).map .ok
            ++ .error "denied" :: [.ok ⟨none, (some 0), none⟩])).reqs.length
          = ([] : List ListObjectsV2Output).length + 1 ∧
        (operation_cleanup_bucket "bucket"
          (([] : List ListObjectsV2Output).map .ok
            ++ .error "denied" :: [.ok ⟨none, (some 0), none⟩])).tasks.length
          = ([] : List ListObjectsV2Output).length) :=
  ⟨by decide,
    C6_listing_failure_fatal.1 "bucket" [] "denied" [.ok ⟨none, (some 0), none⟩]
      (by decide)⟩

/-- Claim C7: every listing request the loop issues is capped at 20 keys
and targets the loop's bucket; the first request carries no continuation
cursor (the loop starts with `page_token` absent, and the cursor is
supplied exactly when `page_token` is present); and request `i + 1`
exists only because response `i` succeeded with a present next-token,
which is exactly the cursor carried by request `i + 1` — pages are
fetched strictly in server-provided sequence. -/
theorem C7_requests_capped_and_chained (b : String) (l : List ListResp) :
    (∀ r ∈ (operation_cleanup_bucket b l).reqs, r.max_keys = 20 ∧ r.bucket = b) ∧
      (∀ r, (operation_cleanup_bucket b l).reqs[0]? = some r → r = ⟨b, 20, none⟩) ∧
      (∀ i r, (operation_cleanup_bucket b l).reqs[i + 1]? = some r →
        ∃ o, l[i]? = some (.ok o) ∧ r.continuation_token = o.next_continuation_token ∧
          o.next_continuation_token ≠ none) :=
  loop_reqs_spec b l none

/-- Witness for C7: on a two-page script the second request carries
exactly the token of the first response. -/
theorem C7_requests_capped_and_chained_witness :
    ((operation_cleanup_bucket "bucket"
          [.ok ⟨none, (some 0), (some "t")⟩, .ok ⟨none, (some 0), none⟩]).reqs[0 + 1]?
        = some ⟨"bucket", 20, (some "t")⟩) ∧
      (∃ o, ([.ok ⟨none, (some 0), (some "t")⟩, .ok ⟨none, (some 0), none⟩] :
            List ListResp)[0]? = some (.ok o) ∧
        (ListRequest.mk "bucket" 20 (some "t")).continuation_token
            = o.next_continuation_token ∧
          o.next_continuation_token ≠ none) :=
  ⟨by decide,
    (C7_requests_capped_and_chained "bucket"
          [.ok ⟨none, (some 0), (some "t")⟩, .ok ⟨none, (some 0), none⟩]).2.2 0
      ⟨"bucket", 20, (some "t")⟩ (by decide)⟩

/-- Claim C8: cleanup is fire-and-forget with respect to deletion — for
any response script, the operation's event trace contains no await of
spawned tasks (the `join_all(delete_tasks)` of the source is commented
out), and on a normal run the trace ends with the return event
immediately after the loop's last iteration, so the operation returns as
soon as all pages are enumerated, regardless of the spawned tasks'
progress (the spawned tasks are carried in the run's `tasks` field,
unexecuted by the orchestrator). -/
theorem C8_never_awaits_delete_tasks (b : String) (l : List ListResp) :
    (∀ n, Event.awaitTasks n ∉ (operation_cleanup_bucket b l).events) ∧
      ((operation_cleanup_bucket b l).outcome = .ok →
        (operation_cleanup_bucket b l).events.getLast? = some .ret) :=
  loop_no_await b l none

/-- Witness for C8 at a single-page script that returns normally. -/
theorem C8_never_awaits_delete_tasks_witness :
    (operation_cleanup_bucket "bucket" [.ok ⟨none, (some 0), none⟩]).outcome = .ok ∧
      (operation_cleanup_bucket "bucket"
        [.ok ⟨none, (some 0), none⟩]).events.getLast? = some .ret :=
  ⟨by decide,
    (C8_never_awaits_delete_tasks "bucket" [.ok ⟨none, (some 0), none⟩]).2 (by decide)⟩

/-- Claim C9: for a requested count of `n` objects, the create-objects
operation spawns exactly 16 creation tasks; each task issues `n` put
requests, so `16 * n` puts are issued in total, each with a distinct
fresh UUID draw; and unlike cleanup, the operation awaits all 16 task
handles (`join_all`) before returning (the await event precedes the
final return event of the trace). -/
theorem C9_sixteen_tasks_each_n_puts
    (put_object : String → String → Except StoreError Unit)
    (uuid : Nat → Nat → String) (b : String) (n : Nat) :
    (operation_create_objects put_object uuid b n).task_runs.length = 16 ∧
      (∀ tr ∈ (operation_create_objects put_object uuid b n).task_runs,
        tr.puts.length = n) ∧
      ((operation_create_objects put_object uuid b n).task_runs.map
          (fun tr => tr.puts.length)).sum = 16 * n ∧
      ((operation_create_objects put_object uuid b n).task_runs.flatMap
          (fun tr => tr.puts.map (fun p => p.draw))).Nodup ∧
      Event.awaitTasks 16 ∈ (operation_create_objects put_object uuid b n).events ∧
      (operation_create_objects put_object uuid b n).events.getLast? = some .ret := by
  refine ⟨?_, ?_, ?_, ?_, ?_, ?_⟩
  · simp [operation_create_objects]
  · intro tr htr
    simp only [operation_create_objects, List.mem_map] at htr
    obtain ⟨t, _, rfl⟩ := htr
    simp [create_object]
  · have hfun : ((fun tr : CreateTaskRun => tr.puts.length)
        ∘ fun t => create_object put_object uuid b t n) = fun _ => n := by
      funext t
      simp [create_object]
    have h1 : ((operation_create_objects put_object uuid b n).task_runs.map
        (fun tr => tr.puts.length)) = List.replicate 16 n := by
      simp only [operation_create_objects, List.map_map, hfun, List.map_const',
        List.length_range]
    rw [h1, List.sum_replicate, smul_eq_mul]
  · have h2 : ((operation_create_objects put_object uuid b n).task_runs.flatMap
          (fun tr => tr.puts.map (fun p => p.draw)))
        = (List.range 16).flatMap (fun t => (List.range n).map (fun j => (t, j))) := by
      simp only [operation_create_objects, List.flatMap_map]
      exact congrArg (fun f => (List.range 16).flatMap f)
        (funext fun t => by simp [create_object, List.map_map, Function.comp])
    rw [h2, List.nodup_flatMap]
    constructor
    · intro t _
      exact (List.nodup_range n).map (fun a c hac => by simpa using hac)
    · refine (List.nodup_range 16).imp ?_
      intro a c hac x hxa hxc
      simp only [List.mem_map] at hxa hxc
      obtain ⟨j1, _, rfl⟩ := hxa
      obtain ⟨j2, _, hfx⟩ := hxc
      exact hac (congrArg Prod.fst hfx).symm
  · simp [operation_create_objects]
  · have h3 : (operation_create_objects put_object uuid b n).events
        = (((List.range 16).map Event.spawnCreate) ++ [Event.awaitTasks 16])
            ++ [Event.ret] := by
      simp [operation_create_objects]
    rw [h3, List.getLast?_concat]

/-- Claim C10, counterexample: the claim's "accepts if and only if one to
six ASCII digits" fails in the only-if direction — the regex crate's `\d`
is Unicode-aware by default (it matches the `Nd` category), so the
validator accepts the single Arabic-Indic digit string "٣" (U+0663),
which is accepted yet contains no ASCII digit at all. -/
theorem C10_accepts_non_ascii_digit :
    validate_number "٣" = .ok .valid ∧ ¬ ("٣".data.all Char.isDigit = true) := by
  decide

/-- Claim C10 (amended): the object-count validator accepts exactly the
strings of one to six Unicode decimal digits (the regex crate's default
`\d` class, the `Nd` category, of which ASCII digits are the first
range) — in particular it accepts "0" and "000000" although its
rejection message asks for a value from 1 to 999999, it also accepts
non-ASCII digit strings such as "٣", and it rejects signs, spaces,
non-digits and strings of more than six digits. -/
theorem C10_validator_accepts_iff_one_to_six_unicode_digits :
    (∀ s : String, validate_number s = .ok .valid ↔
        (s.data.all isUnicodeDigit = true ∧ 1 ≤ s.data.length ∧ s.data.length ≤ 6)) ∧
      validate_number "0" = .ok .valid ∧
      validate_number "000000" = .ok .valid ∧
      validate_number "٣" = .ok .valid ∧
      validate_number "+1"
        = .ok (.invalid "Invalid quantity specified. Please use a value from 1 - 999999") ∧
      validate_number "-1" ≠ .ok .valid ∧
      validate_number " 1" ≠ .ok .valid ∧
      validate_number "1 " ≠ .ok .valid ∧
      validate_number "12a4" ≠ .ok .valid ∧
      validate_number "1234567" ≠ .ok .valid := by
  refine ⟨?_, by decide, by decide, by decide, by decide, by decide, by decide,
    by decide, by decide, by decide⟩
  intro s
  by_cases hm : matchClassRange isUnicodeDigit 1 6 s.data = true
  · rw [validate_number, if_pos hm]
    exact iff_of_true rfl ((matchClassRange_iff isUnicodeDigit s.data 1 6).mp hm)
  · rw [validate_number, if_neg hm]
    refine iff_of_false (by simp) ?_
    intro hr
    exact hm ((matchClassRange_iff isUnicodeDigit s.data 1 6).mpr hr)

end S3Stress
